import Mathlib

/-!
Verification of the tekstowo.pl crawler (`src/tekstowo_oop.py`) against its
natural-language specification.

The scraper is embedded shallowly: the HTTP transport is a `fetch` function
parameter returning `Option`/page structures (`none` models a
`requests.exceptions.RequestException` or a non-2xx response), HTML documents
are records holding exactly the pieces of the DOM the scraper reads, and
Python's unbounded `while` loop is modelled with explicit fuel.  A result of
`none` from a fallible function models the Python call raising (or, for
`get_artist_songs`, returning its `False` failure signal).
-/

namespace Tekstowo

/-- Does `needle` occur at the start of `hay`? (helper for the Python `in`
substring test, written by structural recursion over the character lists). -/
def listStartsWith : List Char → List Char → Bool
  | [], _ => true
  | _ :: _, [] => false
  | c :: cs, d :: ds => c == d && listStartsWith cs ds

/-- Does `needle` occur anywhere in `hay`? -/
def hasSub : List Char → List Char → Bool
  | needle, [] => needle.isEmpty
  | needle, d :: ds => listStartsWith needle (d :: ds) || hasSub needle ds

/-- Python's `needle in hay` substring test. -/
def pyIn (needle hay : String) : Bool :=
  hasSub needle.data hay.data

/-- Python's `str.strip()`: drop whitespace from both ends. -/
def pyStrip (s : String) : String :=
  ⟨((s.data.dropWhile Char.isWhitespace).reverse.dropWhile Char.isWhitespace).reverse⟩

/-- Python's `str.lower()` (ASCII case mapping, which covers the scraped
labels' uppercase letters). -/
def pyLower (s : String) : String :=
  ⟨s.data.map Char.toLower⟩

/-- Python's `str.upper()` (ASCII case mapping; language codes are ASCII). -/
def pyUpper (s : String) : String :=
  ⟨s.data.map Char.toUpper⟩

/-- The characters before the first occurrence of `sep` (helper for Python's
`s.split(sep)[0]`). -/
def takeUntilSub (sep : List Char) : List Char → List Char
  | [] => []
  | c :: t => if listStartsWith sep (c :: t) then [] else c :: takeUntilSub sep t

/-- Python's `s.split(sep)[0]` for a non-empty separator. -/
def pySplitFirst (sep s : String) : String :=
  ⟨takeUntilSub sep.data s.data⟩

/-- Python's `s.replace(a, b)` for single-character pattern and
replacement. -/
def pyReplaceChar (a b : Char) (s : String) : String :=
  ⟨s.data.map fun c => if c == a then b else c⟩

/-- Python's `str.isnumeric()` restricted to ASCII labels, as produced by the
site's pagination controls: non-empty and all digits. -/
def pyIsNumeric (s : String) : Bool :=
  !s.data.isEmpty && s.data.all Char.isDigit

/-- Accumulator pass of decimal parsing. -/
def digitsVal : List Char → Nat → Nat
  | [], acc => acc
  | c :: t, acc => digitsVal t (acc * 10 + (c.toNat - 48))

/-- Python's `int(s)` on a string that passed `isnumeric`. -/
def pyInt (s : String) : Nat :=
  digitsVal s.data 0

/-- An anchor element of the parsed document: `text` is its rendered text
(BeautifulSoup `.text`), `href` its link target (`element["href"]`).  The
elements the scraper indexes with `["href"]` (pagination controls, song title
links) are anchors carrying the attribute. -/
structure Elem where
  text : String
  href : String
deriving DecidableEq

/-- One `class_="box-przeboje"` block of an artist page; `title_el` is
`song.find(class_="title")`, `none` when the block has no title element. -/
structure SongBlock where
  title_el : Option Elem
deriving DecidableEq

/-- The parts of a fetched artist page that `get_artist_songs` reads:
the song-listing blocks, the header element's text
(`soup.find(class_="col-md-7 col-lg-8 px-0")`, `none` when absent — then
`.text` raises `AttributeError`), and the `class_="page-link"` pagination
controls in document order. -/
structure ArtistPage where
  songs : List SongBlock
  artist_header : Option String
  page_links : List Elem
deriving DecidableEq

/-- `max_page_number_lut`: the fetch result is `none` on a
`RequestException` (incl. `raise_for_status`), otherwise the list of
`class_="page-link"` label texts.  Returns the largest numeric label, 0 when
none, 0 on failure. -/
def max_page_number_lut (fetched : Option (List String)) : Nat :=
  match fetched with
  | none => 0
  | some labels =>
      labels.foldl
        (fun max_page page =>
          if pyIsNumeric page ∧ pyInt page > max_page then pyInt page else max_page)
        0

/-- `artist.text.split(" (")[0].strip()` of `get_artist_songs`. -/
def artist_name (htext : String) : String :=
  pyStrip (pySplitFirst " (" htext)

/-- The body of the `for song in songs` loop of `get_artist_songs`: accept the
block's title link only if the rendered title still contains the artist name,
the URL matches neither bad pattern, and it was not collected before. -/
def add_song (artist : String) (acc : List String) (b : SongBlock) : List String :=
  match b.title_el with
  | none => acc
  | some el =>
      if pyIn artist (pyStrip el.text) then
        let song_url := "https://tekstowo.pl" ++ el.href
        if pyIn ".plpiosenka" song_url = false ∧ song_url ∉ acc
            ∧ pyIn "dodaj_tekst" song_url = false then
          acc ++ [song_url]
        else acc
      else acc

/-- The whole `for song in songs` loop over one artist page. -/
def collect_page (artist : String) (blocks : List SongBlock) (urls : List String) :
    List String :=
  blocks.foldl (add_song artist) urls

/-- The pagination step of `get_artist_songs`: take the last `page-link`
element; if its text, lowercased, contains "następna", follow its target,
otherwise stop. -/
def next_url (page_links : List Elem) : Option String :=
  match page_links.getLast? with
  | none => none
  | some el =>
      if pyIn "następna" (pyLower el.text) then
        some ("https://tekstowo.pl" ++ el.href)
      else none

/-- The `while not processed_first_page` loop of `get_artist_songs`, with
explicit fuel for the unbounded iteration.  `none` models the function
returning `False` (request failure, or any exception such as the
`AttributeError` from a missing header element); fuel exhaustion is also
`none`. -/
def get_artist_songs_loop (fetch : String → Option ArtistPage) :
    Nat → String → List String → Option (List String)
  | 0, _, _ => none
  | fuel + 1, artist_url, urls =>
      match fetch artist_url with
      | none => none
      | some page =>
          match page.artist_header with
          | none => none
          | some htext =>
              match next_url page.page_links with
              | some u2 =>
                  get_artist_songs_loop fetch fuel u2
                    (collect_page (artist_name htext) page.songs urls)
              | none => some (collect_page (artist_name htext) page.songs urls)

/-- `Scraper.get_artist_songs(artist_url)`: `some urls` on success, `none`
for the `return False` failure signal. -/
def get_artist_songs (fetch : String → Option ArtistPage) (fuel : Nat)
    (artist_url : String) : Option (List String) :=
  get_artist_songs_loop fetch fuel artist_url []

/-- `Scraper.max_page_number_letter(letter)`: `ltr` is only assigned when
`len(letter) < 2`, so for longer letters the `url = f"...{ltr}..."` line
raises `UnboundLocalError` (modelled by `none`) before any fetch; otherwise
the upper-cased letter's listing URL is fetched and handed to
`max_page_number_lut` (whose own errors are absorbed into the returned 0). -/
def max_page_number_letter (fetch : String → Option (List String))
    (letter : String) : Option Nat :=
  if letter.length < 2 then
    some (max_page_number_lut
      (fetch ("https://www.tekstowo.pl/artysci_na," ++ pyUpper letter ++ ".html")))
  else none

/-- `self.alphabet`: the 26 uppercase ASCII letters plus the sentinel bucket
`"pozostale"`. -/
def alphabet : List String :=
  ((List.range 26).map fun i => String.singleton (Char.ofNat (65 + i))) ++ ["pozostale"]

/-- Python exceptions that `get_artists` can raise. -/
inductive PyError where
  | keyError
  | valueError
deriving DecidableEq

/-- The runtime type of `get_artists`'s `max_page_per_letter` argument: a
dict (modelled as an association list), an int, or anything else. -/
inductive PageLimit where
  | dict (m : List (String × Nat))
  | int (n : Int)
  | other
deriving DecidableEq

/-- The listing URL `get_artists` fetches for a page of a letter. -/
def artists_page_url (letter : String) (page : Nat) : String :=
  "https://www.tekstowo.pl/artysci_na," ++ letter ++ ",strona," ++ toString page ++ ".html"

/-- The per-page body of `get_artists`: a failed or non-2xx fetch contributes
zero URLs (the `except Exception` / `if response.ok` branches); otherwise every
anchor whose `href` attribute is a string containing `"piosenki_"` is kept,
prefixed with the origin.  The fetch result carries `link.get("href")` of each
anchor (`none` for anchors without the attribute). -/
def artists_page_urls (fetch : String → Option (List (Option String)))
    (letter : String) (page : Nat) : List String :=
  match fetch (artists_page_url letter page) with
  | none => []
  | some links =>
      links.filterMap fun item =>
        match item with
        | some s => if pyIn "piosenki_" s then some ("https://tekstowo.pl" ++ s) else none
        | none => none

/-- `Scraper.get_artists(letter, max_page_per_letter)`: resolve the page
limit (dict lookup — raising `KeyError` when the letter is missing —, plain
int, or `ValueError` for anything else), then walk pages `1..limit`
accumulating artist URLs; individual page failures are absorbed. -/
def get_artists (letter : String) (max_page_per_letter : PageLimit)
    (fetch : String → Option (List (Option String))) :
    Except PyError (List String × Nat) :=
  match max_page_per_letter with
  | .dict m =>
      match m.lookup letter with
      | none => .error .keyError
      | some limit =>
          let urls := (List.range' 1 limit).foldl
            (fun acc page => acc ++ artists_page_urls fetch letter page) []
          .ok (urls, urls.length)
  | .int n =>
      let urls := (List.range' 1 n.toNat).foldl
        (fun acc page => acc ++ artists_page_urls fetch letter page) []
      .ok (urls, urls.length)
  | .other => .error .valueError

/-- The parts of a fetched song page `extract_song` reads: the text of the
`class_="col-lg-7"` title element, of the `class_="inner-text"` lyrics
element, and of the `div#translation` container — each `none` when the
element is absent (then `.text` raises `AttributeError`, caught by the
`except`). -/
structure SongPage where
  title_el : Option String
  lyrics_el : Option String
  transl_el : Option String
deriving DecidableEq

/-- `Scraper.extract_song(song_url)`.  `resp` is `none` when the fetch raised
or returned a non-2xx status (both leave the `try` block with `song_title`
never assigned, so the final `return` raises `UnboundLocalError`: modelled by
the `none` result).  After the title is bound, a missing lyrics or
translation element only truncates the extraction and the partially filled
triple is returned. -/
def extract_song (resp : Option SongPage) :
    Option (String × Option String × String) :=
  match resp with
  | none => none
  | some page =>
      match page.title_el with
      | none => none
      | some tt =>
          let song_title := pyStrip tt
          match page.lyrics_el with
          | none => some ("", none, song_title)
          | some lt =>
              let song := pyStrip lt
              match page.transl_el with
              | none => some (song, none, song_title)
              | some trt =>
                  some (song, some (pySplitFirst "\t\t" (pyStrip trt)), song_title)

/-- `Scraper.assess_language(song_text)`: non-string input (modelled `none`)
returns `False` without invoking the classifier; a classifier failure
(`LangDetectException`) also returns `False`.  The classifier itself is the
external `detect` parameter. -/
def assess_language (detect : String → Option String) (song_text : Option String) :
    Option String :=
  match song_text with
  | none => none
  | some s => detect s

/-- The original-song branch's write of `save_songs`, guarded by
`if isinstance(lang_base, str) and len(lang_base) < 3 and
len(original_song) > 10`; the language is `Option String` because
`assess_language` hands the caller `False` on failure (`none` here). -/
def orig_write_of (title original_song : String) (lang_base : Option String) :
    Option (String × String) :=
  match lang_base with
  | some l =>
      if l.length < 3 ∧ original_song.length > 10 then
        some (pyReplaceChar '/' '-' title ++ "__" ++ pyUpper l ++ ".txt", original_song)
      else none
  | none => none

/-- The translation branch's write, `if isinstance(lang_transl, str) and
len(lang_transl) < 3 and len(translated_song) > 10` (only consulted by
`save_songs` on the non-crashing paths). -/
def tran_write_of (title : String) (translated_song lang_transl : Option String) :
    Option (String × String) :=
  match lang_transl with
  | none => none
  | some l =>
      match translated_song with
      | none => none
      | some t =>
          if l.length < 3 ∧ t.length > 10 then
            some (pyReplaceChar '/' '-' title ++ "__TRAN__" ++ pyUpper l ++ ".txt", t)
          else none

/-- `Scraper.save_songs(title, original_song, translated_song, lang_base,
lang_transl)`, modelled as the pair of file writes (filename, content) it
performs: the first component is the original-song write, the second the
translation write, each `none` when its guard rejects the content.
`translated_song` is `Option String` because `extract_song` can return
`None` for it.  The outer `Option` is `none` exactly when
`len(translated_song)` is evaluated on `None` (`lang_transl` a string
shorter than 3 while the translation is `None`), which raises `TypeError`
in Python. -/
def save_songs (title original_song : String) (translated_song : Option String)
    (lang_base lang_transl : Option String) :
    Option (Option (String × String) × Option (String × String)) :=
  match lang_transl with
  | some l =>
      if l.length < 3 then
        match translated_song with
        | some _ =>
            some (orig_write_of title original_song lang_base,
              tran_write_of title translated_song lang_transl)
        | none => none
      else some (orig_write_of title original_song lang_base, none)
  | none => some (orig_write_of title original_song lang_base, none)

/-- The `__main__` driver: collect artists for the letter with page limit 2,
then for each artist URL enumerate songs, and for each song extract, classify
and save.  Returns the list of per-song write pairs; `none` models an
uncaught exception aborting the run — in particular `for song in songs:`
raising `TypeError` when `get_artist_songs` returned `False`, and the
`UnboundLocalError` from `extract_song`. -/
def main_run (letter : String)
    (fetch_listing : String → Option (List (Option String)))
    (fetch_artist : String → Option ArtistPage) (fuel : Nat)
    (fetch_song : String → Option SongPage)
    (detect : String → Option String) :
    Option (List (Option (String × String) × Option (String × String))) :=
  match get_artists letter (PageLimit.int 2) fetch_listing with
  | .error _ => none
  | .ok (urls, _) =>
      urls.foldlM
        (fun acc url =>
          match get_artist_songs fetch_artist fuel url with
          | none => none
          | some songs =>
              songs.foldlM
                (fun acc2 song =>
                  match extract_song (fetch_song song) with
                  | none => none
                  | some (s, st, t) =>
                      match save_songs t s st (assess_language detect (some s))
                          (assess_language detect st) with
                      | none => none
                      | some w => some (acc2 ++ [w]))
                acc)
        []

/-! ### Concrete fixtures used by the witness theorems -/

/-- A fetch stub whose single artist page lists the same song link twice and
has no pagination controls. -/
def fetch_dup_page : String → Option ArtistPage := fun _ =>
  some { songs := [{ title_el := some { text := "A x", href := "/s1" } },
                   { title_el := some { text := "A x", href := "/s1" } }],
         artist_header := some "A", page_links := [] }

/-- A fetch stub whose single artist page carries one good link, one
"add lyrics" action link and one link whose missing leading slash produces the
malformed `.plpiosenka` concatenation. -/
def fetch_bad_links_page : String → Option ArtistPage := fun _ =>
  some { songs := [{ title_el := some { text := "A x", href := "/s1" } },
                   { title_el := some { text := "A y", href := "/dodaj_tekst,1.html" } },
                   { title_el := some { text := "A z", href := "piosenka,2.html" } }],
         artist_header := some "A", page_links := [] }

/-- First page of the pagination-witness chain: its last pagination control is
labelled "Następna >" and points at `/n`. -/
def page_chain_0 : ArtistPage :=
  { songs := [{ title_el := some { text := "A x", href := "/s1" } }],
    artist_header := some "A",
    page_links := [{ text := "1", href := "/p1" }, { text := "Następna >", href := "/n" }] }

/-- Second page of the pagination-witness chain: no pagination controls. -/
def page_chain_1 : ArtistPage :=
  { songs := [{ title_el := some { text := "A y", href := "/s2" } }],
    artist_header := some "A", page_links := [] }

/-- Fetch stub serving the two chained pages. -/
def fetch_chain : String → Option ArtistPage := fun s =>
  if s = "a" then some page_chain_0
  else if s = "https://tekstowo.pl/n" then some page_chain_1
  else none

/-- URL sequence of the chain. -/
def chain_u : Nat → String := fun i => if i = 0 then "a" else "https://tekstowo.pl/n"

/-- Page sequence of the chain. -/
def chain_p : Nat → ArtistPage := fun i => if i = 0 then page_chain_0 else page_chain_1

/-- Header texts of the chain. -/
def chain_hd : Nat → String := fun _ => "A"

/-- Last pagination controls of the chain. -/
def chain_e : Nat → Elem := fun _ => { text := "Następna >", href := "/n" }

/-- A listing fetch stub for the orchestrator scenario: page 1 of letter Q
lists two artists, every other fetch fails. -/
def listing_two_artists : String → Option (List (Option String)) := fun s =>
  if s = artists_page_url "Q" 1 then
    some [some "/piosenki_a,1.html", some "/piosenki_b,2.html"]
  else none

/-- An artist fetch stub where the first artist's page fetch fails and the
second artist's page is fine (it just has no songs). -/
def fetch_first_artist_fails : String → Option ArtistPage := fun s =>
  if s = "https://tekstowo.pl/piosenki_a,1.html" then none
  else some { songs := [], artist_header := some "B", page_links := [] }

/-! ### Helper lemmas about song collection -/

theorem mem_add_song {artist : String} {acc : List String} {b : SongBlock} {s : String}
    (hs : s ∈ add_song artist acc b) :
    s ∈ acc ∨ (pyIn ".plpiosenka" s = false ∧ pyIn "dodaj_tekst" s = false) := by
  rcases b with ⟨t⟩
  cases t with
  | none => exact Or.inl hs
  | some el =>
      simp only [add_song] at hs
      split_ifs at hs with h1 h2
      · rcases List.mem_append.mp hs with h | h
        · exact Or.inl h
        · rw [List.mem_singleton] at h
          subst h
          exact Or.inr ⟨h2.1, h2.2.2⟩
      · exact Or.inl hs
      · exact Or.inl hs

theorem nodup_add_song {artist : String} {acc : List String} {b : SongBlock}
    (h : acc.Nodup) : (add_song artist acc b).Nodup := by
  rcases b with ⟨t⟩
  cases t with
  | none => exact h
  | some el =>
      simp only [add_song]
      split_ifs with h1 h2
      · exact List.nodup_append.mpr
          ⟨h, List.nodup_singleton _, by
            intro x hx hx'
            rw [List.mem_singleton] at hx'
            subst hx'
            exact h2.2.1 hx⟩
      · exact h
      · exact h

theorem mem_collect_page {artist s : String} :
    ∀ (blocks : List SongBlock) (urls : List String),
      s ∈ collect_page artist blocks urls →
      s ∈ urls ∨ (pyIn ".plpiosenka" s = false ∧ pyIn "dodaj_tekst" s = false) := by
  intro blocks
  induction blocks with
  | nil => exact fun urls hs => Or.inl hs
  | cons b bs ih =>
      intro urls hs
      rcases ih (add_song artist urls b) hs with h | h
      · exact mem_add_song h
      · exact Or.inr h

theorem nodup_collect_page {artist : String} :
    ∀ (blocks : List SongBlock) (urls : List String), urls.Nodup →
      (collect_page artist blocks urls).Nodup := by
  intro blocks
  induction blocks with
  | nil => exact fun _ h => h
  | cons b bs ih => exact fun urls h => ih _ (nodup_add_song h)

theorem loop_mem {fetch : String → Option ArtistPage} {s : String} :
    ∀ (fuel : Nat) (url : String) (acc res : List String),
      get_artist_songs_loop fetch fuel url acc = some res → s ∈ res →
      s ∈ acc ∨ (pyIn ".plpiosenka" s = false ∧ pyIn "dodaj_tekst" s = false) := by
  intro fuel
  induction fuel with
  | zero => intro url acc res h _; simp [get_artist_songs_loop] at h
  | succ n ih =>
      intro url acc res h hs
      cases hf : fetch url with
      | none => simp [get_artist_songs_loop, hf] at h
      | some page =>
          cases hh : page.artist_header with
          | none => simp [get_artist_songs_loop, hf, hh] at h
          | some htext =>
              cases hn : next_url page.page_links with
              | some u2 =>
                  simp only [get_artist_songs_loop, hf, hh, hn] at h
                  rcases ih u2 _ res h hs with h' | h'
                  · exact mem_collect_page _ _ h'
                  · exact Or.inr h'
              | none =>
                  simp only [get_artist_songs_loop, hf, hh, hn, Option.some.injEq] at h
                  subst h
                  exact mem_collect_page _ _ hs

theorem loop_nodup {fetch : String → Option ArtistPage} :
    ∀ (fuel : Nat) (url : String) (acc res : List String), acc.Nodup →
      get_artist_songs_loop fetch fuel url acc = some res → res.Nodup := by
  intro fuel
  induction fuel with
  | zero => intro url acc res _ h; simp [get_artist_songs_loop] at h
  | succ n ih =>
      intro url acc res hacc h
      cases hf : fetch url with
      | none => simp [get_artist_songs_loop, hf] at h
      | some page =>
          cases hh : page.artist_header with
          | none => simp [get_artist_songs_loop, hf, hh] at h
          | some htext =>
              cases hn : next_url page.page_links with
              | some u2 =>
                  simp only [get_artist_songs_loop, hf, hh, hn] at h
                  exact ih u2 _ res (nodup_collect_page _ _ hacc) h
              | none =>
                  simp only [get_artist_songs_loop, hf, hh, hn, Option.some.injEq] at h
                  subst h
                  exact nodup_collect_page _ _ hacc

/-! ### Helper lemmas about the pagination step -/

theorem next_url_of_next {links : List Elem} {el : Elem}
    (hl : links.getLast? = some el) (ht : pyIn "następna" (pyLower el.text) = true) :
    next_url links = some ("https://tekstowo.pl" ++ el.href) := by
  simp [next_url, hl, ht]

theorem next_url_of_no_last {links : List Elem} (hl : links.getLast? = none) :
    next_url links = none := by
  simp [next_url, hl]

theorem next_url_of_not_next {links : List Elem} {el : Elem}
    (hl : links.getLast? = some el) (ht : pyIn "następna" (pyLower el.text) = false) :
    next_url links = none := by
  simp [next_url, hl, ht]

theorem foldl_range_shift {α : Type} (f : α → Nat → α) (a : α) (k : Nat) :
    (List.range (k + 1)).foldl f a =
      (List.range k).foldl (fun x i => f x (i + 1)) (f a 0) := by
  rw [List.range_succ_eq_map, List.foldl_cons, List.foldl_map]

/-- The traversal loop, run on a chain of pages each of whose last pagination
control is a "next" control leading to the following page — the last page of
the chain ending the pagination —, visits exactly the pages of the chain and
returns the accumulated collection. -/
theorem loop_follows_chain (fetch : String → Option ArtistPage) :
    ∀ (k fuel : Nat) (u : Nat → String) (p : Nat → ArtistPage) (hd : Nat → String)
      (e : Nat → Elem) (acc : List String),
      k < fuel →
      (∀ i, i ≤ k → fetch (u i) = some (p i)) →
      (∀ i, i ≤ k → (p i).artist_header = some (hd i)) →
      (∀ i, i < k → (p i).page_links.getLast? = some (e i)) →
      (∀ i, i < k → pyIn "następna" (pyLower (e i).text) = true) →
      (∀ i, i < k → u (i + 1) = "https://tekstowo.pl" ++ (e i).href) →
      ((p k).page_links.getLast? = none ∨
        ∃ el, (p k).page_links.getLast? = some el ∧
          pyIn "następna" (pyLower el.text) = false) →
      get_artist_songs_loop fetch fuel (u 0) acc =
        some ((List.range (k + 1)).foldl
          (fun a i => collect_page (artist_name (hd i)) (p i).songs a) acc) := by
  intro k
  induction k with
  | zero =>
      intro fuel u p hd e acc hfuel hf hh _ _ _ hstop
      obtain ⟨f, rfl⟩ : ∃ f, fuel = f + 1 := ⟨fuel - 1, by omega⟩
      have hnu : next_url (p 0).page_links = none := by
        rcases hstop with h | ⟨el, h1, h2⟩
        · exact next_url_of_no_last h
        · exact next_url_of_not_next h1 h2
      have hr : List.range 1 = [0] := rfl
      simp [get_artist_songs_loop, hf 0 (le_refl 0), hh 0 (le_refl 0), hnu, hr]
  | succ k ih =>
      intro fuel u p hd e acc hfuel hf hh hl hn ht hstop
      obtain ⟨f, rfl⟩ : ∃ f, fuel = f + 1 := ⟨fuel - 1, by omega⟩
      have h0 : next_url (p 0).page_links = some ("https://tekstowo.pl" ++ (e 0).href) :=
        next_url_of_next (hl 0 (Nat.succ_pos k)) (hn 0 (Nat.succ_pos k))
      have hu1 : u 1 = "https://tekstowo.pl" ++ (e 0).href := ht 0 (Nat.succ_pos k)
      have hrec := ih f (fun i => u (i + 1)) (fun i => p (i + 1)) (fun i => hd (i + 1))
        (fun i => e (i + 1)) (collect_page (artist_name (hd 0)) (p 0).songs acc)
        (by omega)
        (fun i hi => hf (i + 1) (by omega))
        (fun i hi => hh (i + 1) (by omega))
        (fun i hi => hl (i + 1) (by omega))
        (fun i hi => hn (i + 1) (by omega))
        (fun i hi => ht (i + 1) (by omega))
        hstop
      simp only [get_artist_songs_loop, hf 0 (Nat.zero_le _), hh 0 (Nat.zero_le _), h0]
      rw [← hu1, hrec]
      conv_rhs => rw [foldl_range_shift]

/-- The traversal loop, run on a chain of `j` successfully fetched pages each
continuing to the next, aborts with the failure signal as soon as the fetch of
page `j` fails. -/
theorem loop_fails_on_fetch_failure (fetch : String → Option ArtistPage) :
    ∀ (j fuel : Nat) (u : Nat → String) (p : Nat → ArtistPage) (hd : Nat → String)
      (e : Nat → Elem) (acc : List String),
      j < fuel →
      (∀ i, i < j → fetch (u i) = some (p i)) →
      (∀ i, i < j → (p i).artist_header = some (hd i)) →
      (∀ i, i < j → (p i).page_links.getLast? = some (e i)) →
      (∀ i, i < j → pyIn "następna" (pyLower (e i).text) = true) →
      (∀ i, i < j → u (i + 1) = "https://tekstowo.pl" ++ (e i).href) →
      fetch (u j) = none →
      get_artist_songs_loop fetch fuel (u 0) acc = none := by
  intro j
  induction j with
  | zero =>
      intro fuel u p hd e acc hfuel _ _ _ _ _ hfail
      obtain ⟨f, rfl⟩ : ∃ f, fuel = f + 1 := ⟨fuel - 1, by omega⟩
      simp [get_artist_songs_loop, hfail]
  | succ j ih =>
      intro fuel u p hd e acc hfuel hf hh hl hn ht hfail
      obtain ⟨f, rfl⟩ : ∃ f, fuel = f + 1 := ⟨fuel - 1, by omega⟩
      have h0 : next_url (p 0).page_links = some ("https://tekstowo.pl" ++ (e 0).href) :=
        next_url_of_next (hl 0 (Nat.succ_pos j)) (hn 0 (Nat.succ_pos j))
      have hu1 : u 1 = "https://tekstowo.pl" ++ (e 0).href := ht 0 (Nat.succ_pos j)
      have hrec := ih f (fun i => u (i + 1)) (fun i => p (i + 1)) (fun i => hd (i + 1))
        (fun i => e (i + 1)) (collect_page (artist_name (hd 0)) (p 0).songs acc)
        (by omega)
        (fun i hi => hf (i + 1) (by omega))
        (fun i hi => hh (i + 1) (by omega))
        (fun i hi => hl (i + 1) (by omega))
        (fun i hi => hn (i + 1) (by omega))
        (fun i hi => ht (i + 1) (by omega))
        hfail
      simp only [get_artist_songs_loop, hf 0 (Nat.succ_pos j), hh 0 (Nat.succ_pos j), h0]
      rw [← hu1, hrec]

/-! ### Claim theorems -/

/-- Claim C1: for every artist traversal, the sequence returned by song
enumeration (`get_artist_songs`) contains no duplicate URLs — each song URL is
appended at most once per artist, even if the same link appears on two
successive pages of the artist's listing. -/
theorem get_artist_songs_nodup (fetch : String → Option ArtistPage) (fuel : Nat)
    (url : String) (res : List String)
    (h : get_artist_songs fetch fuel url = some res) : res.Nodup :=
  loop_nodup fuel url [] res List.nodup_nil h

theorem get_artist_songs_nodup_witness :
    get_artist_songs fetch_dup_page 1 "a" = some ["https://tekstowo.pl/s1"] ∧
    List.Nodup ["https://tekstowo.pl/s1"] :=
  ⟨rfl, get_artist_songs_nodup fetch_dup_page 1 "a" _ rfl⟩

/-- Claim C2: song enumeration follows the "next page" control exactly while
the last pagination-control element exists and its label case-insensitively
contains "następna"; at the first page where the last control is absent or its
label does not contain that token, the traversal stops and the accumulated URL
sequence — the pages of the chain processed in order — is returned. -/
theorem get_artist_songs_pagination (fetch : String → Option ArtistPage)
    (k fuel : Nat) (u : Nat → String) (p : Nat → ArtistPage) (hd : Nat → String)
    (e : Nat → Elem)
    (hfuel : k < fuel)
    (hf : ∀ i, i ≤ k → fetch (u i) = some (p i))
    (hh : ∀ i, i ≤ k → (p i).artist_header = some (hd i))
    (hl : ∀ i, i < k → (p i).page_links.getLast? = some (e i))
    (hn : ∀ i, i < k → pyIn "następna" (pyLower (e i).text) = true)
    (ht : ∀ i, i < k → u (i + 1) = "https://tekstowo.pl" ++ (e i).href)
    (hstop : (p k).page_links.getLast? = none ∨
      ∃ el, (p k).page_links.getLast? = some el ∧
        pyIn "następna" (pyLower el.text) = false) :
    get_artist_songs fetch fuel (u 0) =
      some ((List.range (k + 1)).foldl
        (fun a i => collect_page (artist_name (hd i)) (p i).songs a) []) :=
  loop_follows_chain fetch k fuel u p hd e [] hfuel hf hh hl hn ht hstop

theorem get_artist_songs_pagination_witness :
    get_artist_songs fetch_chain 2 "a" =
      some ["https://tekstowo.pl/s1", "https://tekstowo.pl/s2"] := by
  have h := get_artist_songs_pagination fetch_chain 1 2 chain_u chain_p chain_hd chain_e
    (by omega)
    (fun i hi => by interval_cases i <;> rfl)
    (fun i hi => by interval_cases i <;> rfl)
    (fun i hi => by interval_cases i; rfl)
    (fun i hi => by interval_cases i; decide)
    (fun i hi => by interval_cases i; rfl)
    (Or.inl rfl)
  exact h

/-- Claim C3: when any fetch of an artist page fails at the network level,
`get_artist_songs` returns the failure signal (`False` in the source, `none`
here), which is distinct from the empty list, so a caller can distinguish
"artist has no songs" from "could not fetch the artist page". -/
theorem get_artist_songs_fetch_failure (fetch : String → Option ArtistPage)
    (j fuel : Nat) (u : Nat → String) (p : Nat → ArtistPage) (hd : Nat → String)
    (e : Nat → Elem)
    (hfuel : j < fuel)
    (hf : ∀ i, i < j → fetch (u i) = some (p i))
    (hh : ∀ i, i < j → (p i).artist_header = some (hd i))
    (hl : ∀ i, i < j → (p i).page_links.getLast? = some (e i))
    (hn : ∀ i, i < j → pyIn "następna" (pyLower (e i).text) = true)
    (ht : ∀ i, i < j → u (i + 1) = "https://tekstowo.pl" ++ (e i).href)
    (hfail : fetch (u j) = none) :
    get_artist_songs fetch fuel (u 0) = none ∧
      get_artist_songs fetch fuel (u 0) ≠ some [] := by
  have h : get_artist_songs fetch fuel (u 0) = none :=
    loop_fails_on_fetch_failure fetch j fuel u p hd e [] hfuel hf hh hl hn ht hfail
  refine ⟨h, ?_⟩
  intro hc
  rw [h] at hc
  cases hc

theorem get_artist_songs_fetch_failure_witness :
    get_artist_songs (fun _ => none) 1 "a" = none ∧
      get_artist_songs (fun _ => none) 1 "a" ≠ some [] :=
  get_artist_songs_fetch_failure (fun _ => none) 0 1 (fun _ => "a")
    (fun _ => ⟨[], none, []⟩) (fun _ => "") (fun _ => ⟨"", ""⟩)
    (by omega)
    (fun i hi => absurd hi (Nat.not_lt_zero i))
    (fun i hi => absurd hi (Nat.not_lt_zero i))
    (fun i hi => absurd hi (Nat.not_lt_zero i))
    (fun i hi => absurd hi (Nat.not_lt_zero i))
    (fun i hi => absurd hi (Nat.not_lt_zero i))
    rfl

/-- Claim C4: for every artist traversal, no URL in the sequence returned by
song enumeration contains the malformed-domain marker `.plpiosenka` or the
add-lyrics action marker `dodaj_tekst`: any candidate link matching either
pattern is rejected before collection. -/
theorem get_artist_songs_excludes_bad (fetch : String → Option ArtistPage)
    (fuel : Nat) (url : String) (res : List String)
    (h : get_artist_songs fetch fuel url = some res) :
    ∀ s ∈ res, pyIn ".plpiosenka" s = false ∧ pyIn "dodaj_tekst" s = false := by
  intro s hs
  rcases loop_mem fuel url [] res h hs with h' | h'
  · exact absurd h' (List.not_mem_nil s)
  · exact h'

theorem get_artist_songs_excludes_bad_witness :
    get_artist_songs fetch_bad_links_page 1 "a" = some ["https://tekstowo.pl/s1"] ∧
    (pyIn ".plpiosenka" "https://tekstowo.pl/s1" = false ∧
      pyIn "dodaj_tekst" "https://tekstowo.pl/s1" = false) :=
  ⟨rfl, get_artist_songs_excludes_bad fetch_bad_links_page 1 "a" _ rfl
    "https://tekstowo.pl/s1" (by decide)⟩

theorem max_page_foldl (l : List String) :
    ∀ acc : Nat,
      l.foldl (fun m page => if pyIsNumeric page ∧ pyInt page > m then pyInt page else m) acc
        = ((l.filter fun t => pyIsNumeric t).map pyInt).foldl max acc := by
  induction l with
  | nil => intro acc; rfl
  | cons t ts ih =>
      intro acc
      rw [List.foldl_cons, ih]
      by_cases hp : pyIsNumeric t = true
      · rw [List.filter_cons_of_pos hp, List.map_cons, List.foldl_cons]
        congr 1
        by_cases hgt : pyInt t > acc
        · rw [if_pos ⟨hp, hgt⟩]
          exact (Nat.max_eq_right (Nat.le_of_lt hgt)).symm
        · rw [if_neg fun hc => hgt hc.2]
          exact (Nat.max_eq_left (Nat.le_of_not_lt hgt)).symm
      · rw [List.filter_cons_of_neg fun hc => hp hc]
        congr 1
        exact if_neg fun hc => hp hc.1

/-- Claim C5: `max_page_number_lut` returns, for every successfully fetched
listing document, the largest numeric label among its pagination-control
elements, ignoring non-numeric labels (a document with labels
{2, 5, 9, "next"} yields 9); it returns 0 both when the document has no
pagination controls and on any network-level failure (the `none` fetch
result), in the failure case without raising. -/
theorem max_page_number_lut_spec :
    max_page_number_lut none = 0 ∧
    (∀ labels : List String,
      max_page_number_lut (some labels) =
        ((labels.filter fun t => pyIsNumeric t).map pyInt).foldl max 0) ∧
    max_page_number_lut (some []) = 0 ∧
    max_page_number_lut (some ["2", "5", "9", "next"]) = 9 :=
  ⟨rfl, fun labels => max_page_foldl labels 0, rfl, by decide⟩

/-- Claim C6: for every non-crashing call of `save_songs`, exactly one
original-content file is written — named `{sanitized_title}__{LANG}.txt`, the
language upper-cased and the title sanitized by replacing the path separator
with a hyphen — exactly when `lang_original` is a string of length < 3 and the
original text's length exceeds 10; zero original files otherwise.  The same
predicate and the `{sanitized_title}__TRAN__{LANG}.txt` scheme govern the
translation file. -/
theorem save_songs_spec (title original_song : String) (translated_song : Option String)
    (lang_base lang_transl : Option String) (ow tw : Option (String × String))
    (h : save_songs title original_song translated_song lang_base lang_transl
      = some (ow, tw)) :
    (ow.isSome = true ↔
      ∃ l, lang_base = some l ∧ l.length < 3 ∧ original_song.length > 10) ∧
    (∀ l, lang_base = some l → l.length < 3 → original_song.length > 10 →
      ow = some (pyReplaceChar '/' '-' title ++ "__" ++ pyUpper l ++ ".txt",
        original_song)) ∧
    (tw.isSome = true ↔
      ∃ l t, lang_transl = some l ∧ translated_song = some t ∧
        l.length < 3 ∧ t.length > 10) ∧
    (∀ l t, lang_transl = some l → translated_song = some t → l.length < 3 →
      t.length > 10 →
      tw = some (pyReplaceChar '/' '-' title ++ "__TRAN__" ++ pyUpper l ++ ".txt", t)) := by
  have hpair : ow = orig_write_of title original_song lang_base ∧
      tw = tran_write_of title translated_song lang_transl := by
    rcases lang_transl with _ | l
    · simp only [save_songs, Option.some.injEq, Prod.mk.injEq] at h
      exact ⟨h.1.symm, h.2.symm⟩
    · simp only [save_songs] at h
      by_cases hl : l.length < 3
      · rw [if_pos hl] at h
        rcases translated_song with _ | t
        · cases h
        · simp only [Option.some.injEq, Prod.mk.injEq] at h
          exact ⟨h.1.symm, h.2.symm⟩
      · rw [if_neg hl] at h
        simp only [Option.some.injEq, Prod.mk.injEq] at h
        refine ⟨h.1.symm, ?_⟩
        rcases translated_song with _ | t
        · exact h.2.symm
        · simp only [tran_write_of]
          rw [if_neg fun hc => hl hc.1]
          exact h.2.symm
  obtain ⟨how, htw⟩ := hpair
  subst how
  subst htw
  refine ⟨?_, ?_, ?_, ?_⟩
  · rcases lang_base with _ | l
    · simp [orig_write_of]
    · by_cases hc : l.length < 3 ∧ original_song.length > 10
      · simp only [orig_write_of, if_pos hc, Option.isSome_some, true_iff]
        exact ⟨l, rfl, hc.1, hc.2⟩
      · simp only [orig_write_of, if_neg hc, Option.isSome_none]
        constructor
        · intro hfalse; cases hfalse
        · rintro ⟨l', hl', h1, h2⟩
          cases hl'
          exact absurd ⟨h1, h2⟩ hc
  · intro l hl h1 h2
    subst hl
    simp only [orig_write_of]
    rw [if_pos ⟨h1, h2⟩]
  · rcases lang_transl with _ | l
    · simp [tran_write_of]
    · rcases translated_song with _ | t
      · simp [tran_write_of]
      · by_cases hc : l.length < 3 ∧ t.length > 10
        · simp only [tran_write_of, if_pos hc, Option.isSome_some, true_iff]
          exact ⟨l, t, rfl, rfl, hc.1, hc.2⟩
        · simp only [tran_write_of, if_neg hc, Option.isSome_none]
          constructor
          · intro hfalse; cases hfalse
          · rintro ⟨l', t', hl', ht', h3, h4⟩
            cases hl'; cases ht'
            exact absurd ⟨h3, h4⟩ hc
  · intro l t hl ht h1 h2
    subst hl
    subst ht
    simp only [tran_write_of]
    rw [if_pos ⟨h1, h2⟩]

theorem save_songs_spec_witness :
    (Option.isSome (some ("a-b__PL.txt", "0123456789A")) = true ↔
      ∃ l, (some "pl" : Option String) = some l ∧ l.length < 3 ∧
        ("0123456789A" : String).length > 10) ∧
    (∀ l, (some "pl" : Option String) = some l → l.length < 3 →
      ("0123456789A" : String).length > 10 →
      (some ("a-b__PL.txt", "0123456789A") : Option (String × String)) =
        some (pyReplaceChar '/' '-' "a/b" ++ "__" ++ pyUpper l ++ ".txt",
          "0123456789A")) ∧
    (Option.isSome (some ("a-b__TRAN__EN.txt", "0123456789ABC")) = true ↔
      ∃ l t, (some "en" : Option String) = some l ∧
        (some "0123456789ABC" : Option String) = some t ∧
        l.length < 3 ∧ t.length > 10) ∧
    (∀ l t, (some "en" : Option String) = some l →
      (some "0123456789ABC" : Option String) = some t → l.length < 3 →
      t.length > 10 →
      (some ("a-b__TRAN__EN.txt", "0123456789ABC") : Option (String × String)) =
        some (pyReplaceChar '/' '-' "a/b" ++ "__TRAN__" ++ pyUpper l ++ ".txt", t)) :=
  save_songs_spec "a/b" "0123456789A" (some "0123456789ABC") (some "pl") (some "en")
    (some ("a-b__PL.txt", "0123456789A")) (some ("a-b__TRAN__EN.txt", "0123456789ABC"))
    (by decide)

/-- Claim C7 (counterexample): the claim states `get_artists` does not raise
whenever its page-limit argument has one of the two accepted forms (a mapping
from letters to page numbers, or an integer); but called with the mapping `{}`
— which is such a mapping — and letter "Q", the lookup
`max_page_per_letter[letter]` raises `KeyError`. -/
theorem get_artists_dict_missing_raises :
    get_artists "Q" (PageLimit.dict []) (fun _ => none)
      = Except.error PyError.keyError :=
  rfl

/-- Claim C7 (amended): `get_artists` raises the `ValueError` iff the
page-limit argument is neither a dict nor an int; additionally a dict lacking
an entry for the letter raises `KeyError`; with an int, or a dict containing
the letter, the call does not raise — even when every page fetch fails. -/
theorem get_artists_raises_iff (letter : String) (mpl : PageLimit)
    (fetch : String → Option (List (Option String))) :
    (get_artists letter mpl fetch = Except.error PyError.valueError ↔
      mpl = PageLimit.other) ∧
    (get_artists letter mpl fetch = Except.error PyError.keyError ↔
      ∃ m, mpl = PageLimit.dict m ∧ m.lookup letter = none) ∧
    (∀ n, mpl = PageLimit.int n → ∃ r, get_artists letter mpl fetch = Except.ok r) ∧
    (∀ m v, mpl = PageLimit.dict m → m.lookup letter = some v →
      ∃ r, get_artists letter mpl fetch = Except.ok r) := by
  rcases mpl with m | n | _
  · cases hm : m.lookup letter with
    | none =>
        refine ⟨?_, ?_, ?_, ?_⟩
        · constructor
          · intro hc
            rw [show get_artists letter (PageLimit.dict m) fetch
              = Except.error PyError.keyError by simp [get_artists, hm]] at hc
            injection hc with h2
            exact PyError.noConfusion h2
          · intro hc
            exact PageLimit.noConfusion hc
        · constructor
          · intro _
            exact ⟨m, rfl, hm⟩
          · intro _
            simp [get_artists, hm]
        · intro n hn
          exact PageLimit.noConfusion hn
        · intro m' v hm' hv
          injection hm' with he
          subst he
          rw [hm] at hv
          cases hv
    | some lim =>
        refine ⟨?_, ?_, ?_, ?_⟩
        · constructor
          · intro hc
            rw [show get_artists letter (PageLimit.dict m) fetch
              = Except.ok ((List.range' 1 lim).foldl
                  (fun acc page => acc ++ artists_page_urls fetch letter page) [],
                ((List.range' 1 lim).foldl
                  (fun acc page => acc ++ artists_page_urls fetch letter page) []).length)
              by simp [get_artists, hm]] at hc
            exact Except.noConfusion hc
          · intro hc
            exact PageLimit.noConfusion hc
        · constructor
          · intro hc
            rw [show get_artists letter (PageLimit.dict m) fetch
              = Except.ok ((List.range' 1 lim).foldl
                  (fun acc page => acc ++ artists_page_urls fetch letter page) [],
                ((List.range' 1 lim).foldl
                  (fun acc page => acc ++ artists_page_urls fetch letter page) []).length)
              by simp [get_artists, hm]] at hc
            exact Except.noConfusion hc
          · rintro ⟨m', he, hv⟩
            injection he with he'
            subst he'
            rw [hm] at hv
            cases hv
        · intro n hn
          exact PageLimit.noConfusion hn
        · intro m' v hm' hv
          exact ⟨((List.range' 1 lim).foldl
              (fun acc page => acc ++ artists_page_urls fetch letter page) [],
            ((List.range' 1 lim).foldl
              (fun acc page => acc ++ artists_page_urls fetch letter page) []).length),
            by simp [get_artists, hm]⟩
  · refine ⟨?_, ?_, ?_, ?_⟩
    · constructor
      · intro hc
        exact Except.noConfusion hc
      · intro hc
        exact PageLimit.noConfusion hc
    · constructor
      · intro hc
        exact Except.noConfusion hc
      · rintro ⟨m', he, _⟩
        exact PageLimit.noConfusion he
    · intro n' _
      exact ⟨_, rfl⟩
    · intro m' v hm' _
      exact PageLimit.noConfusion hm'
  · refine ⟨?_, ?_, ?_, ?_⟩
    · constructor
      · intro _
        rfl
      · intro _
        rfl
    · constructor
      · intro hc
        injection hc with h2
        exact PyError.noConfusion h2
      · rintro ⟨m', he, _⟩
        exact PageLimit.noConfusion he
    · intro n hn
      exact PageLimit.noConfusion hn
    · intro m' v hm' _
      exact PageLimit.noConfusion hm'

theorem get_artists_raises_iff_witness :
    ∃ r, get_artists "Q" (PageLimit.int 2) (fun _ => none) = Except.ok r :=
  (get_artists_raises_iff "Q" (PageLimit.int 2) (fun _ => none)).2.2.1 2 rfl

/-- Claim C8 (code bug): `extract_song` is claimed never to propagate an
error — on a non-success fetch it should return empty lyrics, an absent
translation and no title, and parsing exceptions should yield the same
degraded result.  In the source `song_title` is only ever assigned inside the
`try` block, so on a non-success response (first conjunct) — and on any
exception raised before the title is read, such as a missing title element
(second conjunct) — the final `return song, song_translation, song_title`
raises `UnboundLocalError` (the `none` crash result here) instead of
returning the degraded triple. -/
theorem extract_song_unbound_title :
    extract_song none = none ∧
    extract_song
      (some { title_el := none, lyrics_el := some "some lyrics text",
              transl_el := none }) = none :=
  ⟨rfl, rfl⟩

/-- Claim C9 (code bug): the orchestrator is claimed to proceed to the next
URL in every loop after any single unit's failure; but when
`get_artist_songs` returns its failure signal (`False`) for the first artist,
the driver's `for song in songs:` iterates over a boolean and raises
`TypeError`, aborting the whole run (first conjunct: the run crashes) — even
though the second artist's page was fetchable (second conjunct: its
enumeration succeeds with zero songs). -/
theorem main_run_aborts_on_failure :
    main_run "Q" listing_two_artists fetch_first_artist_fails 1 (fun _ => none)
      (fun _ => none) = none ∧
    get_artist_songs fetch_first_artist_fails 1
      "https://tekstowo.pl/piosenki_b,2.html" = some [] :=
  ⟨rfl, rfl⟩

/-- Claim C10 (counterexample): the claim's closing clause says only
single-character letters reach the lookup; but the empty letter (length 0)
also reaches the lookup — `max_page_number_letter` performs the fetch and
returns a page count for it — and the empty string is not a single
character. -/
theorem max_page_number_letter_empty_cex :
    max_page_number_letter (fun _ => some []) "" = some 0 ∧
    ("" : String).length ≠ 1 :=
  ⟨rfl, by decide⟩

/-- Claim C10 (amended): for every letter of length ≥ 2 — including the
sentinel bucket "pozostale", which is a member of the scraper's own alphabet
— `max_page_number_letter` fails with an unbound-local-variable error (the
`none` result) before performing any fetch (the result is the same for every
fetch function); exactly the letters of length < 2 (zero or one character)
reach the lookup. -/
theorem max_page_number_letter_crash (letter : String) (h : 2 ≤ letter.length) :
    (∀ fetch : String → Option (List String),
      max_page_number_letter fetch letter = none) ∧
    "pozostale" ∈ alphabet ∧
    2 ≤ ("pozostale" : String).length ∧
    (∀ (fetch : String → Option (List String)) (l : String),
      (max_page_number_letter fetch l).isSome = true ↔ l.length < 2) := by
  refine ⟨?_, ?_, by decide, ?_⟩
  · intro fetch
    simp only [max_page_number_letter]
    rw [if_neg (by omega)]
  · simp only [alphabet]
    exact List.mem_append.mpr (Or.inr (List.mem_singleton.mpr rfl))
  · intro fetch l
    by_cases hl : l.length < 2
    · simp [max_page_number_letter, hl]
    · simp [max_page_number_letter, hl]

theorem max_page_number_letter_crash_witness :
    (∀ fetch : String → Option (List String),
      max_page_number_letter fetch "pozostale" = none) ∧
    "pozostale" ∈ alphabet ∧
    2 ≤ ("pozostale" : String).length ∧
    (∀ (fetch : String → Option (List String)) (l : String),
      (max_page_number_letter fetch l).isSome = true ↔ l.length < 2) :=
  max_page_number_letter_crash "pozostale" (by decide)

end Tekstowo
